import Mathlib

/-!
Shallow embedding of the `local-agent` chat loop (src/local-agent/src/agent.py and
src/local-agent/src/servers/nexa.py): the conversation-window memory manager, the
prompt builder, the tool-call parser, the chat-completion dispatch, and the Nexa
model client's failure handling.  The remote model is represented by an oracle
`model : List Message → String` (or, where exceptions matter, by an explicit
outcome type); all other logic is translated directly from the Python source.
-/

/-- A chat message, as the Python dicts `{"role": ..., "content": ...}`. -/
structure Message where
  role : String
  content : String
deriving DecidableEq, Repr

/-- Modelled from the spec: `src/tools.py` is not present under src/ (only its
tests and callers are).  The spec's Tool Registry contract is
`{name: string (unique key), handler: (optional string) → string, description:
string}`; `Tool.run` is the handler invocation `Tool.invoke(arg) → string`. -/
structure Tool where
  name : String
  run : String → String
  description : String

/-- The agent's mutable state and configuration, from `Agent.__init__`:
`core_identity`, `long_memory` / `_disable_long_memory`, `short_memory` /
`_max_short_memory` / `_disable_short_memory`, and the tool registry
`self.tools` (kept here as the registration list; lookup is last-wins as in
the Python dict comprehension). -/
structure AgentState where
  core_identity : String
  tools : List Tool
  long_memory : String
  disable_long_memory : Bool
  short_memory : List Message
  max_short_memory : Nat
  disable_short_memory : Bool

/-- Registry lookup: `self.tools = {tool.name: tool for tool in tools}` followed by
`self.tools.get(name)`: a later registration with the same name overwrites an
earlier one, so lookup returns the last tool whose name matches. -/
def lookupTool (tools : List Tool) (name : String) : Option Tool :=
  tools.foldl (fun acc t => if t.name == name then some t else acc) none

/-- A word character of the tool-call regex `\w` (ASCII fragment):
letters, digits, underscore. -/
def isWordChar (c : Char) : Bool :=
  c.isAlpha || c.isDigit || c == '_'

/-- Matching `re.compile(r"^(\w+)\((.*)\)$", re.DOTALL)` against a string:
a nonempty maximal run of word characters at the start, a literal `(`,
a greedy dot-all capture, and a final `)` at the very end of the string.
Greediness means the argument runs to the last `)`, which must close the
string.  Returns `(identifier, argument)` on a match. -/
def parseToolCall (s : String) : Option (String × String) :=
  let cs := s.toList
  let name := cs.takeWhile isWordChar
  let rest := cs.dropWhile isWordChar
  if name.isEmpty then none
  else
    match rest with
    | '(' :: rest2 =>
      match rest2.reverse with
      | ')' :: midRev => some (String.mk name, String.mk midRev.reverse)
      | _ => none
    | _ => none

/-- Python `str.strip()` with no argument: remove whitespace from both ends. -/
def pyStrip (s : String) : String :=
  String.mk (((s.toList.dropWhile Char.isWhitespace).reverse.dropWhile Char.isWhitespace).reverse)

/-- Python `str.capitalize()`: first character uppercased, the rest
lowercased. -/
def pyCapitalize (s : String) : String :=
  match s.toList with
  | [] => ""
  | c :: rest => String.mk (c.toUpper :: rest.map Char.toLower)

/-- Model of `Agent._build_prompt`: the core identity, then (if long-term memory is
enabled and nonempty) the long-term memory block, then (if the window is
nonempty) a `Recent Interactions:` header followed by each window message
rendered as `Role: content`, then the current user input. -/
def build_prompt (st : AgentState) (user_input : String) : List Message :=
  let messages : List Message := [⟨"system", st.core_identity⟩]
  let messages :=
    if !st.disable_long_memory && !st.long_memory.isEmpty then
      messages ++ [⟨"system", "Long-Term Memory:\n" ++ st.long_memory⟩]
    else messages
  let messages :=
    if !st.short_memory.isEmpty then
      (messages ++ [⟨"system", "Recent Interactions:"⟩])
        ++ st.short_memory.map
            (fun m => ⟨"system", pyCapitalize m.role ++ ": " ++ m.content⟩)
    else messages
  messages ++ [⟨"user", user_input⟩]

/-- The eviction loop of `Agent._handle_memory`:
`while len(self.short_memory) > self._max_short_memory:
popped_messages.append(self.short_memory.pop(0))`.
Returns `(popped_messages, short_memory)` after the loop. -/
def evictLoop : List Message → Nat → List Message → List Message × List Message
  | [], _, popped => (popped, [])
  | m :: rest, maxLen, popped =>
    if rest.length + 1 > maxLen then evictLoop rest maxLen (popped ++ [m])
    else (popped, m :: rest)

/-- The `"\n".join(f"{msg['role'].capitalize()}: {msg['content']}" ...)`
flattening used when building the summarization request. -/
def joinMessages (msgs : List Message) : String :=
  String.intercalate "\n" (msgs.map fun m => pyCapitalize m.role ++ ": " ++ m.content)

/-- The `instruction_content` string of `Agent._handle_memory`, containing the
previous summary, the flattened evicted messages, and the flattened remaining
window. -/
def summaryInstruction (prevSummary poppedText shortText : String) : String :=
  "Update the long-term memory summary for this agent.\n"
    ++ "Previous summary:\n"
    ++ prevSummary ++ "\n\n"
    ++ "Messages that just dropped off short-term memory:\n"
    ++ poppedText ++ "\n\n"
    ++ "Current short-term memory:\n"
    ++ shortText ++ "\n\n"
    ++ "Please write a concise English summary that includes important context from all of the above, "
    ++ "without duplicating short-term memory. Respond in English only."

/-- Model of `Agent._handle_memory`.  The source first tests `self._disable_short_memory`
and executes only `pass` (the flag has no further occurrence in the method), then
appends the user and assistant messages, runs the eviction loop, and — when
messages were popped and long-term memory is enabled — makes one model call with
the summarization instruction and overwrites `self.long_memory` with the stripped
result.  Returns the new state together with the list of summarization requests
sent to the model (empty or a single request). -/
def handle_memory (model : List Message → String) (st : AgentState)
    (user_input assistant_response : String) : AgentState × List (List Message) :=
  -- `if self._disable_short_memory: pass` — no effect
  let mem1 := st.short_memory
    ++ [⟨"user", user_input⟩, ⟨"assistant", assistant_response⟩]
  let pe := evictLoop mem1 st.max_short_memory []
  let popped := pe.1
  let mem2 := pe.2
  if !popped.isEmpty && !st.disable_long_memory then
    let prompt : List Message :=
      [⟨"system", summaryInstruction st.long_memory (joinMessages popped) (joinMessages mem2)⟩]
    let summary := model prompt
    ({ st with short_memory := mem2, long_memory := pyStrip summary }, [prompt])
  else
    ({ st with short_memory := mem2 }, [])

/-- Model of `Agent.chat_completion`: build the prompt, call the model once, match the
stripped reply against the tool grammar.  `result` is initialized to the empty
string; on a grammar match it becomes the tool's return value only when the
identifier resolves in the registry (`if tool:` has no else branch, so a
registry miss leaves `result = ""`); with no grammar match it is the raw reply.
The result is stripped, memory is updated with the interaction, and the result
is returned.  The third component collects the summarization requests made
during the memory update. -/
def chat_completion (model : List Message → String) (st : AgentState)
    (user_input : String) : String × AgentState × List (List Message) :=
  let messages := build_prompt st user_input
  let response := model messages
  let result :=
    match parseToolCall (pyStrip response) with
    | some (name, arg) =>
      match lookupTool st.tools name with
      | some tool => if !arg.isEmpty then tool.run arg else tool.run ""
      | none => ""
    | none => response
  let result := pyStrip result
  let st2 := handle_memory model st user_input result
  (result, st2.1, st2.2)

/-- The exception an unguarded `requests.post` raises when the endpoint is
unreachable. -/
inductive PyExn where
  | connectionError
deriving DecidableEq, Repr

/-- The possible outcomes of the HTTP POST in `NexaClient.chat`: the request
never completes (``requests.post`` raises), or a response arrives whose body
is not valid JSON, is JSON lacking `choices[0].message.content` (the access
raises, carrying some error text), or carries a completion. -/
inductive NexaOutcome where
  | unreachable
  | notJson
  | missingContent (errText : String)
  | content (text : String)

/-- Model of `NexaClient.chat`: `requests.post` stands before the `try` block, so an
unreachable endpoint raises straight out of the method; only the body access
`chat_response.json()['choices'][0]['message']['content']` is guarded, a
`ValueError` from `.json()` yielding the fixed string and any other exception
yielding `"Chat request failed. Error: ..."`.  `Except.error` models an
uncaught Python exception; `Except.ok` a returned string. -/
def NexaClient.chat (outcome : NexaOutcome) : Except PyExn String :=
  match outcome with
  | .unreachable => .error .connectionError
  | .notJson => .ok "Response is not valid JSON"
  | .missingContent errText => .ok ("Chat request failed. Error: " ++ errText)
  | .content text => .ok text

/-- The turn body of `Agent.run`:
`result = asyncio.run(self.chat_completion(user_input))` has no surrounding
`try`/`except`, so an exception from the model client propagates out of the
loop; a returned string is printed and the session continues to the next turn. -/
def runTurn (chatOutcome : Except PyExn String) : Except PyExn String :=
  match chatOutcome with
  | .error e => .error e
  | .ok result => .ok result

/-- A sample registry entry: the `Echo` tool of the repository's tests,
returning `Echo: ` followed by its argument. -/
def echoTool : Tool := ⟨"Echo", fun a => "Echo: " ++ a, "Echoes input"⟩

/-- A sample agent state: the default configuration of `Agent.__init__`
(window size 20, long-term memory disabled, short-term memory enabled),
with the `Echo` tool registered. -/
def sampleState : AgentState :=
  { core_identity := "Test agent identity"
    tools := [echoTool]
    long_memory := ""
    disable_long_memory := true
    short_memory := []
    max_short_memory := 2
    disable_short_memory := false }

/-- A sample state about to evict: window size 2 already filled, long-term
memory enabled, and `DISABLE_SHORT_MEMORY` set. -/
def evState : AgentState :=
  { sampleState with
      disable_short_memory := true
      disable_long_memory := false
      short_memory := [Message.mk "user" "a", Message.mk "assistant" "b"] }

/-- A sample state identical to `evState` except that `DISABLE_SHORT_MEMORY`
is unset. -/
def evStateOff : AgentState := { evState with disable_short_memory := false }

theorem evictLoop_eq (mem : List Message) (maxLen : Nat) (popped : List Message) :
    evictLoop mem maxLen popped =
      (popped ++ mem.take (mem.length - maxLen), mem.drop (mem.length - maxLen)) := by
  induction mem generalizing popped with
  | nil => simp [evictLoop]
  | cons m rest ih =>
    by_cases h : rest.length + 1 > maxLen
    · have hk : (m :: rest).length - maxLen = (rest.length - maxLen) + 1 := by
        simp only [List.length_cons]; omega
      simp only [evictLoop, if_pos h, ih, hk, List.take_succ_cons, List.drop_succ_cons]
      simp
    · have hk : rest.length + 1 - maxLen = 0 := by omega
      simp [evictLoop, if_neg h, hk]

theorem handle_memory_window (model : List Message → String) (st : AgentState)
    (u a : String) :
    ((handle_memory model st u a).1).short_memory =
      (st.short_memory ++ [Message.mk "user" u, Message.mk "assistant" a]).drop
        ((st.short_memory ++ [Message.mk "user" u, Message.mk "assistant" a]).length - st.max_short_memory) := by
  unfold handle_memory
  simp only [evictLoop_eq]
  split <;> rfl

/-- Claim C4: after every call to the memory-update operation, the length of the
conversation window is at most the configured maximum `W`
(`_max_short_memory`), for every starting state and every model oracle. -/
theorem window_length_le_max (model : List Message → String) (st : AgentState)
    (u a : String) :
    ((handle_memory model st u a).1).short_memory.length ≤ st.max_short_memory := by
  rw [handle_memory_window]
  simp only [List.length_drop]
  omega

/-- Claim C5: eviction is strict FIFO.  The memory-update operation appends the
user and assistant messages (2 entries) to the back of the window; the eviction
loop then pops exactly the excess entries from the front, collecting them in
eviction order, so the popped list is the initial prefix of the appended window
and the new window is the matching suffix. -/
theorem fifo_eviction (model : List Message → String) (st : AgentState)
    (u a : String) :
    evictLoop (st.short_memory ++ [Message.mk "user" u, Message.mk "assistant" a]) st.max_short_memory []
      = ((st.short_memory ++ [Message.mk "user" u, Message.mk "assistant" a]).take
          ((st.short_memory ++ [Message.mk "user" u, Message.mk "assistant" a]).length - st.max_short_memory),
         (st.short_memory ++ [Message.mk "user" u, Message.mk "assistant" a]).drop
          ((st.short_memory ++ [Message.mk "user" u, Message.mk "assistant" a]).length - st.max_short_memory)) ∧
    ((handle_memory model st u a).1).short_memory =
      (st.short_memory ++ [Message.mk "user" u, Message.mk "assistant" a]).drop
        ((st.short_memory ++ [Message.mk "user" u, Message.mk "assistant" a]).length - st.max_short_memory) :=
  ⟨by rw [evictLoop_eq]; simp, handle_memory_window model st u a⟩

/-- Claim C7: if long-term summarization is disabled
(`_disable_long_memory = true`), the memory-update operation never mutates the
summary and sends no summarization request, whether or not eviction occurred. -/
theorem long_memory_frame (model : List Message → String) (st : AgentState)
    (u a : String) (h : st.disable_long_memory = true) :
    ((handle_memory model st u a).1).long_memory = st.long_memory ∧
    (handle_memory model st u a).2 = [] := by
  unfold handle_memory
  simp [h]

theorem long_memory_frame_witness :
    sampleState.disable_long_memory = true ∧
    (((handle_memory (fun _ => "SUMMARY") sampleState "u" "a").1).long_memory
        = sampleState.long_memory ∧
      (handle_memory (fun _ => "SUMMARY") sampleState "u" "a").2 = []) :=
  ⟨rfl, long_memory_frame (fun _ => "SUMMARY") sampleState "u" "a" rfl⟩

/-- Claim C2 counterexample: with `DISABLE_SHORT_MEMORY` set, long-term memory
enabled, and a full window of size 2, the memory-update operation still sends a
summarization request and overwrites the summary — eviction-triggered
summarization is not skipped, contradicting the claim that it is the one
behavior the flag disables. -/
theorem disable_short_memory_counterexample :
    evState.disable_short_memory = true ∧
    evState.long_memory = "" ∧
    ((handle_memory (fun _ => "SUMMARY") evState "c" "d").2).length = 1 ∧
    ((handle_memory (fun _ => "SUMMARY") evState "c" "d").1).long_memory = "SUMMARY" := by
  decide

/-- Claim C2 (amended): when `DISABLE_SHORT_MEMORY` is true the memory-update
operation still appends the user and assistant messages to the window, but
nothing at all is skipped either: the flag has no effect on the resulting
window, summary, or summarization requests (the source tests it and executes
only `pass`). -/
theorem disable_short_memory_no_effect (model : List Message → String)
    (st : AgentState) (u a : String) :
    ((handle_memory model { st with disable_short_memory := true } u a).1).short_memory
        = ((handle_memory model { st with disable_short_memory := false } u a).1).short_memory ∧
    ((handle_memory model { st with disable_short_memory := true } u a).1).long_memory
        = ((handle_memory model { st with disable_short_memory := false } u a).1).long_memory ∧
    (handle_memory model { st with disable_short_memory := true } u a).2
        = (handle_memory model { st with disable_short_memory := false } u a).2 ∧
    ((handle_memory model { st with disable_short_memory := true } u a).1).short_memory
        = (st.short_memory ++ [Message.mk "user" u, Message.mk "assistant" a]).drop
            ((st.short_memory ++ [Message.mk "user" u, Message.mk "assistant" a]).length
              - st.max_short_memory) := by
  refine ⟨?_, ?_, ?_, ?_⟩
  · simp only [handle_memory]; split <;> rfl
  · simp only [handle_memory]; split <;> rfl
  · simp only [handle_memory]; split <;> rfl
  · exact handle_memory_window model { st with disable_short_memory := true } u a

/-- Claim C8: whenever the memory-update operation evicts at least one entry
and long-term summarization is enabled, it makes exactly one summarization
model call, whose single request message is the instruction built from the
previous summary, the flattened evicted entries, and the flattened remaining
window; and the summary is overwritten wholesale with the stripped result of
that one call. -/
theorem summarization_on_eviction (model : List Message → String)
    (st : AgentState) (u a : String)
    (hlong : st.disable_long_memory = false)
    (hpop : ((evictLoop (st.short_memory ++ [Message.mk "user" u, Message.mk "assistant" a])
        st.max_short_memory []).1).isEmpty = false) :
    (handle_memory model st u a).2 =
      [[Message.mk "system" (summaryInstruction st.long_memory
          (joinMessages ((evictLoop (st.short_memory
              ++ [Message.mk "user" u, Message.mk "assistant" a]) st.max_short_memory []).1))
          (joinMessages ((evictLoop (st.short_memory
              ++ [Message.mk "user" u, Message.mk "assistant" a]) st.max_short_memory []).2)))]] ∧
    ((handle_memory model st u a).1).long_memory =
      pyStrip (model [Message.mk "system" (summaryInstruction st.long_memory
          (joinMessages ((evictLoop (st.short_memory
              ++ [Message.mk "user" u, Message.mk "assistant" a]) st.max_short_memory []).1))
          (joinMessages ((evictLoop (st.short_memory
              ++ [Message.mk "user" u, Message.mk "assistant" a]) st.max_short_memory []).2)))]) := by
  unfold handle_memory
  simp only [hlong, hpop, Bool.not_false, Bool.and_true]
  exact ⟨rfl, rfl⟩

theorem summarization_on_eviction_witness :
    evStateOff.disable_long_memory = false ∧
    ((handle_memory (fun _ => "SUM") evStateOff "c" "d").2).length = 1 ∧
    ((handle_memory (fun _ => "SUM") evStateOff "c" "d").1).long_memory = "SUM" := by
  have h := summarization_on_eviction (fun _ => "SUM") evStateOff "c" "d" rfl (by decide)
  refine ⟨rfl, ?_, ?_⟩
  · rw [h.1]; rfl
  · rw [h.2]; decide

/-- Claim C1 counterexample: with only the `Echo` tool registered, a model
reply `Ghost(hi)` matches the tool grammar but `Ghost` is absent from the
registry, and `Agent.chat_completion` returns the empty string — not the
original reply verbatim. -/
theorem registry_miss_counterexample :
    parseToolCall (pyStrip "Ghost(hi)") = some ("Ghost", "hi") ∧
    (lookupTool sampleState.tools "Ghost").isNone = true ∧
    (chat_completion (fun _ => "Ghost(hi)") sampleState "hello").1 = "" ∧
    ("" : String) ≠ "Ghost(hi)" := by
  refine ⟨by decide, rfl, by decide, by decide⟩

/-- Claim C1 (amended): for every model reply that, after trimming, matches the
tool grammar but whose identifier is not a key of the registry,
`Agent.chat_completion` returns the empty string — the untouched `result`
initializer — as the direct answer (the original reply is discarded; the
dispatch fails closed, not open). -/
theorem registry_miss_returns_empty (model : List Message → String)
    (st : AgentState) (u name arg : String)
    (hparse : parseToolCall (pyStrip (model (build_prompt st u))) = some (name, arg))
    (hmiss : lookupTool st.tools name = none) :
    (chat_completion model st u).1 = "" := by
  unfold chat_completion
  simp only [hparse, hmiss]
  rfl

theorem registry_miss_returns_empty_witness :
    parseToolCall (pyStrip ((fun _ => "Ghost(hi)") (build_prompt sampleState "x")))
        = some ("Ghost", "hi") ∧
    lookupTool sampleState.tools "Ghost" = none ∧
    (chat_completion (fun _ => "Ghost(hi)") sampleState "x").1 = "" :=
  ⟨by decide, by rfl,
    registry_miss_returns_empty (fun _ => "Ghost(hi)") sampleState "x" "Ghost" "hi"
      (by decide) (by rfl)⟩

/-- Claim C3 counterexample: when the remote endpoint is unreachable,
`requests.post` raises before the `try` block of `NexaClient.chat`, and the
turn body of `Agent.run` has no handler, so the exception propagates past the
dispatch-loop boundary instead of surfacing as an error value or string. -/
theorem unreachable_raises_counterexample :
    runTurn (NexaClient.chat NexaOutcome.unreachable)
      = Except.error PyExn.connectionError := rfl

/-- Claim C3 (amended): a response whose body is not valid JSON or lacks the
completion field surfaces to the dispatch loop as an error string (the call
returns normally and the session continues), and a completion is returned
verbatim; but an unreachable endpoint raises an exception that propagates past
the dispatch-loop boundary uncaught. -/
theorem nexa_failure_modes (errText text : String) :
    runTurn (NexaClient.chat NexaOutcome.notJson)
        = Except.ok "Response is not valid JSON" ∧
    runTurn (NexaClient.chat (NexaOutcome.missingContent errText))
        = Except.ok ("Chat request failed. Error: " ++ errText) ∧
    runTurn (NexaClient.chat (NexaOutcome.content text)) = Except.ok text ∧
    runTurn (NexaClient.chat NexaOutcome.unreachable)
        = Except.error PyExn.connectionError :=
  ⟨rfl, rfl, rfl, rfl⟩

/-- Claim C6: the reply parser yields tool name `Echo` and argument `test` for
`Echo(test)`, name `Echo` and empty argument for `Echo()`, and no match for
`just text`, in which case `Agent.chat_completion` returns the literal string
as the answer. -/
theorem parse_examples :
    parseToolCall (pyStrip "Echo(test)") = some ("Echo", "test") ∧
    parseToolCall (pyStrip "Echo()") = some ("Echo", "") ∧
    parseToolCall (pyStrip "just text") = none ∧
    (chat_completion (fun _ => "just text") sampleState "hi").1 = "just text" := by
  decide

/-- Claim C9: the prompt built for the primary model call is, in this fixed
order: the system identity first; the long-term memory block only if long-term
memory is enabled and the summary is non-empty; the window-contents block
(header plus rendered window messages) only if the window is non-empty; and
the new user message last. -/
theorem build_prompt_order (st : AgentState) (u : String) :
    build_prompt st u =
      [Message.mk "system" st.core_identity]
        ++ (if !st.disable_long_memory && !st.long_memory.isEmpty then
              [Message.mk "system" ("Long-Term Memory:\n" ++ st.long_memory)]
            else [])
        ++ (if !st.short_memory.isEmpty then
              Message.mk "system" "Recent Interactions:"
                :: st.short_memory.map
                    (fun m => Message.mk "system" (pyCapitalize m.role ++ ": " ++ m.content))
            else [])
        ++ [Message.mk "user" u] := by
  unfold build_prompt
  split_ifs <;> simp

/-- Claim C10: the assistant message recorded in the window carries the final
answer returned by `Agent.chat_completion` (the stripped, post-tool result),
not the raw model reply: the updated window is a suffix of the old window
extended with the user message and an assistant message whose content is
exactly the returned answer, and when a registered tool is invoked that answer
is the stripped return value of the tool. -/
theorem assistant_records_final_answer (model : List Message → String)
    (st : AgentState) (u : String) :
    ((chat_completion model st u).2.1).short_memory =
      (st.short_memory
          ++ [Message.mk "user" u, Message.mk "assistant" (chat_completion model st u).1]).drop
        ((st.short_memory
            ++ [Message.mk "user" u, Message.mk "assistant" (chat_completion model st u).1]).length
          - st.max_short_memory) ∧
    (∀ name arg tool,
      parseToolCall (pyStrip (model (build_prompt st u))) = some (name, arg) →
      lookupTool st.tools name = some tool →
      (chat_completion model st u).1 = pyStrip (tool.run arg)) := by
  constructor
  · exact handle_memory_window model st u ((chat_completion model st u).1)
  · intro name arg tool hparse htool
    unfold chat_completion
    simp only [hparse, htool]
    by_cases harg : arg.isEmpty
    · have ha : arg = "" := (String.isEmpty_iff arg).mp harg
      subst ha
      rfl
    · simp only [harg]
      rfl

theorem assistant_records_final_answer_witness :
    (chat_completion (fun _ => "Echo(test)") sampleState "hi").1
      = pyStrip (echoTool.run "test") :=
  (assistant_records_final_answer (fun _ => "Echo(test)") sampleState "hi").2
    "Echo" "test" echoTool (by decide) (by rfl)
